import Mathlib

/-!
Verification of the ContainerSSH config server (`src/configserver/app.py`)
against its natural-language specification.

The Python source is shallowly embedded: every decision function becomes a
computable Lean function over explicit data.  The file system that backs
`load_users_map` is modelled as an explicit `FileState` argument, and the
Flask handlers become pure functions from a parsed request payload and a
`FileState` to a status code, a response body, and an effect record.
-/

namespace ConfigServer

/-- A user record of the JSON directory file: `backend` (optional string),
`port` (optional integer), `authorized_keys` (optional list of strings).
Mirrors the per-username objects of `users_map.json`. -/
structure UserRecord where
  backend : Option String
  port : Option Nat
  authorized_keys : Option (List String)
deriving Repr, DecidableEq

/-- The directory: a mapping from username to `UserRecord`, embedded as an
association list (Python `dict` with unique keys; lookup finds the unique
binding). -/
def UsersMap := List (String × UserRecord)
deriving Repr, DecidableEq

/-- `username in users_map` / `users_map[username]`: first binding whose key
equals the username. -/
def lookupUser (m : UsersMap) (u : String) : Option UserRecord :=
  match m with
  | [] => none
  | (k, r) :: t => if k = u then some r else lookupUser t u

/-- Python `str.startswith` on explicit character lists. -/
def charListStartsWith : List Char → List Char → Bool
  | _, [] => true
  | [], _ :: _ => false
  | a :: as, b :: bs => a == b && charListStartsWith as bs

/-- `u.startswith(p)` for strings. -/
def pyStartsWith (s p : String) : Bool :=
  charListStartsWith s.toList p.toList

/-- `determine_target_backend(username, users_map)` from
`src/configserver/app.py` lines 185-208: explicit mapping first
(defaults `"backend_vm1"` and `22`), otherwise prefix-pattern routing,
otherwise the default host. -/
def determine_target_backend (username : String) (users_map : UsersMap) :
    String × Nat :=
  match lookupUser users_map username with
  | some user_config =>
      (user_config.backend.getD "backend_vm1", user_config.port.getD 22)
  | none =>
      if pyStartsWith username "admin" || pyStartsWith username "ops" then
        ("backend_vm1", 22)
      else if pyStartsWith username "dev" || pyStartsWith username "test" then
        ("backend_vm2", 22)
      else
        ("backend_vm1", 22)

/-! ## Key matching (`/pubkey`, KeyAuthorizer)

The `/pubkey` handler and its key-matching function are not part of
`src/configserver/app.py`; only their unit tests
(`src/configserver/tests/test_app.py`) exercise them.  They are therefore
modelled from the specification (§4.3, §4.4). -/

/-- Python whitespace characters recognised by `str.strip()` (ASCII range,
which covers SSH key material). -/
def isPyWhitespace (c : Char) : Bool :=
  c == ' ' || c == '\t' || c == '\n' || c == '\x0d' || c == '\x0b' || c == '\x0c'

/-- `s.strip()`: drop leading and trailing whitespace. -/
def pyStrip (s : List Char) : List Char :=
  ((s.dropWhile isPyWhitespace).reverse.dropWhile isPyWhitespace).reverse

/-- Python substring containment `needle in hay` on character lists. -/
def charListContains : List Char → List Char → Bool
  | [], needle => charListStartsWith [] needle
  | hay@(_ :: t), needle => charListStartsWith hay needle || charListContains t needle

/-- Modelled from the spec: `KeyAuthorizer.authorize` is missing from `src/`
(only its tests exist).  Per §4.3: if the username is absent from the
directory, or has no authorized keys, the result is `false`; otherwise, for
each authorized key, trim leading/trailing whitespace from both the stored
and the submitted key and accept as soon as either string contains the other
as a substring. -/
def authorize (username : String) (submittedKey : String) (directory : UsersMap) :
    Bool :=
  match lookupUser directory username with
  | none => false
  | some r =>
      (r.authorized_keys.getD []).any fun ak =>
        let a := pyStrip ak.toList
        let s := pyStrip submittedKey.toList
        charListContains s a || charListContains a s

/-- Modelled from the spec: the `POST /pubkey` handler is missing from `src/`
(only its tests exist).  Per §4.4: it delegates to the authorizer; accept
gives HTTP 200 with `success = true`, reject gives HTTP 403 with
`success = false`.  Result is (status code, success flag). -/
def pubkeyHandler (username publicKey : String) (directory : UsersMap) :
    Nat × Bool :=
  if authorize username publicKey directory then (200, true) else (403, false)

/-! ## Directory loading (`load_users_map`) -/

/-- The observable state of the users-map file for one request: the path may
be missing, opening/parsing may raise, or the file parses to a document. -/
inductive FileState where
  | missing
  | failed (err : String)
  | parsed (doc : UsersMap)
deriving Repr

/-- `load_users_map()` from `src/configserver/app.py` lines 26-34: if the
path exists, try to open and JSON-parse it, returning the parsed document;
any exception is logged and swallowed; in every failure case (missing path
or exception) the function falls through to returning `{}`. -/
def load_users_map : FileState → UsersMap
  | .missing => []
  | .failed _ => []
  | .parsed doc => doc

/-! ## Email local-part sanitization (`extract_username_from_email`) -/

/-- Python `"@" in s`. -/
def containsAt (s : String) : Bool :=
  s.toList.any (· == '@')

/-- `email.split("@")[0]`: the characters before the first `"@"`. -/
def beforeFirstAt (s : String) : List Char :=
  s.toList.takeWhile (fun c => !(c == '@'))

/-- Membership in the regex class `[a-zA-Z0-9._-]`. -/
def isAllowedChar (c : Char) : Bool :=
  (97 ≤ c.toNat && c.toNat ≤ 122) || (65 ≤ c.toNat && c.toNat ≤ 90) ||
  (48 ≤ c.toNat && c.toNat ≤ 57) || c == '.' || c == '_' || c == '-'

/-- `re.sub(r"[^a-zA-Z0-9._-]", "_", u)`: each disallowed character becomes
`'_'`. -/
def sanitizeChars (u : List Char) : List Char :=
  u.map fun c => if isAllowedChar c then c else '_'

/-- `re.sub(r"^[-.]", "_", u)`: a leading `'-'` or `'.'` becomes `'_'`. -/
def fixLeadingDashDot : List Char → List Char
  | [] => []
  | c :: cs => (if c == '-' || c == '.' then '_' else c) :: cs

/-- `extract_username_from_email(email)` from `src/configserver/app.py`
lines 37-62: `None` for a falsy email or one without `"@"`; otherwise the
local part, character-class sanitized, leading dash/dot fixed, truncated to
32 characters. -/
def extract_username_from_email (email : String) : Option String :=
  if email == "" || !containsAt email then none
  else
    let username := beforeFirstAt email
    let username := sanitizeChars username
    let username := fixLeadingDashDot username
    let username := username.take 32
    some (String.mk username)

/-! ## The `/config` handler -/

/-- Fixed path of the service private key (`SERVICE_KEY` in the source). -/
def SERVICE_KEY : String := "/etc/containerssh/keys/backend_id_ed25519"

/-- The single pinned host-key fingerprint embedded in every success
response. -/
def HOST_KEY_FINGERPRINT : String :=
  "SHA256:kE5o9I4CYKDAA4O11TEC/z2rDdBxnuj5MXcdT8cF6GU"

/-- The OAuth metadata object of a `/config` request body. -/
structure Metadata where
  oidc_email : Option String
  email : Option String
deriving Repr, DecidableEq

/-- A parsed `/config` request body: optional `username` and optional
`metadata`. -/
structure Payload where
  username : Option String
  metadata : Option Metadata
deriving Repr, DecidableEq

/-- Python truthiness of an optional string: `None` and `""` are falsy. -/
def pyTruthy : Option String → Bool
  | none => false
  | some s => !(s == "")

/-- Python `a or b` on optional strings: `b` when `a` is falsy. -/
def pyOrElse (a b : Option String) : Option String :=
  if pyTruthy a then a else b

/-- The `sshproxy` object of a success response. -/
structure SshProxySection where
  server : String
  port : Nat
  username : String
  privateKey : String
  allowedHostKeyFingerprints : List String
deriving Repr, DecidableEq

/-- The `config` object of a success response: the fixed backend-protocol
name plus the `sshproxy` section. -/
structure ConfigSection where
  backend : String
  sshproxy : SshProxySection
deriving Repr, DecidableEq

/-- A `/config` response body: either the success document or the failure
document `{"success": false, "error": ...}`. -/
inductive ConfigBody where
  | ok (cfg : ConfigSection)
  | failure (error : String)
deriving Repr, DecidableEq

/-- Which side effects the handler performed before responding: whether the
directory file was loaded, and whether a routing decision was computed. -/
structure ConfigEffects where
  directory_loaded : Bool
  routing_decided : Bool
deriving Repr, DecidableEq

/-- A `/config` response together with the effects performed. -/
structure ConfigResult where
  status : Nat
  body : ConfigBody
  effects : ConfigEffects
deriving Repr, DecidableEq

/-- The `POST /config` handler from `src/configserver/app.py` lines 211-295,
as a function of the parsed payload and the users-map file state.  It
extracts the email (used only for logging), validates the raw `username`
field (empty → 400 before any directory access), then loads the directory,
resolves the backend and builds the success document. -/
def configHandler (payload : Payload) (fs : FileState) : ConfigResult :=
  let metadata := payload.metadata.getD ⟨none, none⟩
  let email := pyOrElse metadata.oidc_email metadata.email
  let provided_username := payload.username.getD ""
  let _email :=
    if !pyTruthy email && containsAt provided_username then
      some provided_username
    else email
  let username := payload.username.getD ""
  if username = "" then
    { status := 400
      body := .failure "Invalid email format"
      effects := ⟨false, false⟩ }
  else
    let users_map := load_users_map fs
    let target := determine_target_backend username users_map
    { status := 200
      body := .ok
        { backend := "sshproxy"
          sshproxy :=
            { server := target.1
              port := target.2
              username := username
              privateKey := SERVICE_KEY
              allowedHostKeyFingerprints := [HOST_KEY_FINGERPRINT] } }
      effects := ⟨true, true⟩ }

/-- The acceptance condition of claim C3, stated from the spec's words: the
username is present, has a non-empty authorized-keys list, and at least one
stored key, after trimming both sides, is a substring of the trimmed
submitted key or vice versa. -/
def pubkeyAcceptSpec (directory : UsersMap) (username publicKey : String) : Prop :=
  ∃ r, lookupUser directory username = some r ∧
    r.authorized_keys.getD [] ≠ [] ∧
    ∃ ak ∈ r.authorized_keys.getD [],
      (charListContains (pyStrip publicKey.toList) (pyStrip ak.toList) = true ∨
       charListContains (pyStrip ak.toList) (pyStrip publicKey.toList) = true)

/-- `authorize` returns `true` exactly on the spec's acceptance condition. -/
lemma authorize_eq_true_iff (directory : UsersMap) (u k : String) :
    authorize u k directory = true ↔ pubkeyAcceptSpec directory u k := by
  unfold authorize pubkeyAcceptSpec
  cases h : lookupUser directory u with
  | none => simp [h]
  | some r =>
      simp only [h, Option.some.injEq, List.any_eq_true, Bool.or_eq_true]
      constructor
      · rintro ⟨ak, hmem, hk⟩
        exact ⟨r, rfl, List.ne_nil_of_mem hmem, ak, hmem, hk⟩
      · rintro ⟨r', hr', -, ak, hmem, hk⟩
        cases hr'
        exact ⟨ak, hmem, hk⟩

end ConfigServer

namespace ConfigServer

/-! ## Theorems for the claims -/

/-- C1: for a username absent from the directory, `determine_target_backend`
is claimed to return host `"vm1"` (or `"vm2"` for `dev`/`test` prefixes) with
port 22.  The code instead returns `"backend_vm1"`/`"backend_vm2"` on every
fallback path, contradicting the repository's own unit tests, which assert
`"vm1"`/`"vm2"`.  This theorem evaluates the code at the failing inputs. -/
theorem determine_target_backend_fallback_hosts :
    determine_target_backend "someuser" [] = ("backend_vm1", 22) ∧
    determine_target_backend "admin123" [] = ("backend_vm1", 22) ∧
    determine_target_backend "ops-user" [] = ("backend_vm1", 22) ∧
    determine_target_backend "dev123" [] = ("backend_vm2", 22) ∧
    determine_target_backend "testuser" [] = ("backend_vm2", 22) :=
  ⟨rfl, rfl, rfl, rfl, rfl⟩

/-- C2: for a present username whose record has no `backend` field, the
claimed default host is `"vm1"`, but the code defaults to `"backend_vm1"`
(same naming slip the unit tests contradict).  The rest of the claim holds:
an explicit record wins over any prefix pattern and an absent `port`
defaults to 22.  This theorem evaluates the code at the failing input and
shows the override (with explicit port, `dev` prefix ignored). -/
theorem determine_target_backend_default_backend :
    determine_target_backend "alice" [("alice", ⟨none, none, none⟩)] =
      ("backend_vm1", 22) ∧
    determine_target_backend "devuser" [("devuser", ⟨none, some 2222, none⟩)] =
      ("backend_vm1", 2222) :=
  ⟨rfl, rfl⟩

/-- C3: the `/pubkey` endpoint returns HTTP 200 with `success = true` iff
the username is present, has a non-empty authorized-keys list, and at least
one stored key, after trimming both sides, is a substring of the trimmed
submitted key or vice versa; otherwise HTTP 403 with `success = false`.
(The handler is modelled from the spec; only its tests are in `src/`.) -/
theorem pubkey_accepts_iff_key_matches (directory : UsersMap) (u k : String) :
    (pubkeyHandler u k directory = (200, true) ↔ pubkeyAcceptSpec directory u k)
    ∧ (pubkeyHandler u k directory = (403, false) ↔ ¬ pubkeyAcceptSpec directory u k) := by
  have hiff := authorize_eq_true_iff directory u k
  unfold pubkeyHandler
  by_cases h : authorize u k directory = true
  · rw [if_pos h]
    constructor
    · simp only [true_iff]
      exact hiff.mp h
    · constructor
      · intro hcontra
        exact absurd hcontra (by decide)
      · intro hn
        exact absurd (hiff.mp h) hn
  · rw [if_neg h]
    have hnot : ¬ pubkeyAcceptSpec directory u k := fun hs => h (hiff.mpr hs)
    constructor
    · constructor
      · intro hcontra
        exact absurd hcontra (by decide)
      · intro hs
        exact absurd hs hnot
    · simp only [true_iff]
      exact hnot

/-- C4: `load_users_map` returns an empty mapping when the file is missing
and when opening or parsing fails; it never propagates a failure (it is a
total function into `UsersMap`), and on success it returns the parsed
document unchanged. -/
theorem load_users_map_total_behavior :
    load_users_map .missing = [] ∧
    (∀ e, load_users_map (.failed e) = []) ∧
    (∀ doc, load_users_map (.parsed doc) = doc) :=
  ⟨rfl, fun _ => rfl, fun _ => rfl⟩

/-- C5: a `/config` request whose `username` field is missing or empty gets
HTTP 400 with the failure body, the directory is never loaded and no routing
decision is computed. -/
theorem config_missing_username_400 (p : Payload) (fs : FileState)
    (h : p.username.getD "" = "") :
    configHandler p fs =
      ⟨400, .failure "Invalid email format", ⟨false, false⟩⟩ := by
  simp [configHandler, h]

/-- Witness for C5 at the concrete empty request body. -/
theorem config_missing_username_400_witness :
    (Payload.mk none none).username.getD "" = "" ∧
    configHandler ⟨none, none⟩ .missing =
      ⟨400, .failure "Invalid email format", ⟨false, false⟩⟩ :=
  ⟨rfl, config_missing_username_400 ⟨none, none⟩ .missing rfl⟩

/-- C6: every successful `/config` response echoes the raw request username
character for character; the sanitization helper is never applied in the
active flow. -/
theorem config_echoes_raw_username (p : Payload) (fs : FileState)
    (h : ¬ p.username.getD "" = "") :
    (configHandler p fs).status = 200 ∧
    ∃ cfg, (configHandler p fs).body = .ok cfg ∧
      cfg.sshproxy.username = p.username.getD "" := by
  simp [configHandler, h]

/-- Witness for C6 at a username containing `'@'` and characters outside
`[A-Za-z0-9._-]`, which still round-trips unsanitized. -/
theorem config_echoes_raw_username_witness :
    ¬ (Payload.mk (some "We!rd@User") none).username.getD "" = "" ∧
    ((configHandler ⟨some "We!rd@User", none⟩ .missing).status = 200 ∧
     ∃ cfg, (configHandler ⟨some "We!rd@User", none⟩ .missing).body = .ok cfg ∧
       cfg.sshproxy.username =
         (Payload.mk (some "We!rd@User") none).username.getD "") :=
  ⟨by decide,
   config_echoes_raw_username ⟨some "We!rd@User", none⟩ .missing (by decide)⟩

/-- C7: on any input containing `'@'`, `extract_username_from_email` returns
the local part with disallowed characters replaced by `'_'`, a leading
`'-'`/`'.'` replaced by `'_'`, truncated to 32 characters (so every returned
string has length at most 32); upper case is preserved; on an empty input or
one without `'@'` it returns `None`. -/
theorem extract_username_from_email_spec (email : String) :
    (¬ containsAt email = true → extract_username_from_email email = none) ∧
    (containsAt email = true →
      extract_username_from_email email =
        some (String.mk
          ((fixLeadingDashDot (sanitizeChars (beforeFirstAt email))).take 32))) ∧
    (∀ s, extract_username_from_email email = some s → s.length ≤ 32) ∧
    extract_username_from_email "John.Doe+x@gmail.com" = some "John.Doe_x" := by
  refine ⟨?_, ?_, ?_, by decide⟩
  · intro h
    have hb : containsAt email = false := by
      cases hc : containsAt email with
      | false => rfl
      | true => exact absurd hc h
    simp [extract_username_from_email, hb]
  · intro h
    have hne : (email == "") = false := by
      cases he : email == "" with
      | false => rfl
      | true =>
          have : email = "" := by
            simpa using he
          rw [this] at h
          exact absurd h (by decide)
    simp [extract_username_from_email, hne, h]
  · intro s hs
    by_cases h : containsAt email = true
    · have hne : (email == "") = false := by
        cases he : email == "" with
        | false => rfl
        | true =>
            have : email = "" := by
              simpa using he
            rw [this] at h
            exact absurd h (by decide)
      simp [extract_username_from_email, hne, h] at hs
      subst hs
      show (List.take 32 _).length ≤ 32
      rw [List.length_take]
      exact Nat.min_le_left _ _
    · have hb : containsAt email = false := by
        cases hc : containsAt email with
        | false => rfl
        | true => exact absurd hc h
      simp [extract_username_from_email, hb] at hs

/-- Witness for C7 at a concrete email with a long, dirty local part. -/
theorem extract_username_from_email_spec_witness :
    containsAt ".a$b@x" = true ∧
    extract_username_from_email ".a$b@x" =
      some (String.mk
        ((fixLeadingDashDot (sanitizeChars (beforeFirstAt ".a$b@x"))).take 32)) :=
  ⟨by decide, (extract_username_from_email_spec ".a$b@x").2.1 (by decide)⟩

/-- C8: the `/config` decision path is deterministic: identical payloads
against identical file contents produce identical responses (the handler is
a pure function of the two). -/
theorem config_deterministic (p₁ p₂ : Payload) (fs₁ fs₂ : FileState)
    (hp : p₁ = p₂) (hf : fs₁ = fs₂) :
    configHandler p₁ fs₁ = configHandler p₂ fs₂ := by
  rw [hp, hf]

/-- Witness for C8: two identical concrete requests agree. -/
theorem config_deterministic_witness :
    configHandler ⟨some "alice", none⟩ (.parsed [("alice", ⟨some "vm2", some 2222, none⟩)]) =
    configHandler ⟨some "alice", none⟩ (.parsed [("alice", ⟨some "vm2", some 2222, none⟩)]) :=
  config_deterministic _ _ _ _ rfl rfl

/-- C9: every successful `/config` response carries the fixed constants:
backend `"sshproxy"`, the fixed private-key path and the one-element pinned
fingerprint list, independent of payload and directory. -/
theorem config_fixed_constants (p : Payload) (fs : FileState)
    (h : (configHandler p fs).status = 200) :
    ∃ cfg, (configHandler p fs).body = .ok cfg ∧
      cfg.backend = "sshproxy" ∧
      cfg.sshproxy.privateKey = SERVICE_KEY ∧
      cfg.sshproxy.allowedHostKeyFingerprints = [HOST_KEY_FINGERPRINT] := by
  by_cases hu : p.username.getD "" = ""
  · have h400 : (configHandler p fs).status = 400 := by
      simp [configHandler, hu]
    rw [h400] at h
    exact absurd h (by decide)
  · simp [configHandler, hu]

/-- Witness for C9 at a concrete successful request. -/
theorem config_fixed_constants_witness :
    (configHandler ⟨some "bob", none⟩ .missing).status = 200 ∧
    ∃ cfg, (configHandler ⟨some "bob", none⟩ .missing).body = .ok cfg ∧
      cfg.backend = "sshproxy" ∧
      cfg.sshproxy.privateKey = SERVICE_KEY ∧
      cfg.sshproxy.allowedHostKeyFingerprints = [HOST_KEY_FINGERPRINT] :=
  ⟨rfl, config_fixed_constants ⟨some "bob", none⟩ .missing rfl⟩

/-- C10: every HTTP 400 `/config` response has exactly the body
`{"success": false, "error": "Invalid email format"}`, even when the request
merely omitted the username and no email was involved. -/
theorem config_400_body_fixed (p : Payload) (fs : FileState)
    (h : (configHandler p fs).status = 400) :
    (configHandler p fs).body = .failure "Invalid email format" := by
  by_cases hu : p.username.getD "" = ""
  · simp [configHandler, hu]
  · exfalso
    have h200 : (configHandler p fs).status = 200 := by
      simp [configHandler, hu]
    rw [h200] at h
    exact absurd h (by decide)

/-- Witness for C10 at the empty request body. -/
theorem config_400_body_fixed_witness :
    (configHandler ⟨none, none⟩ .missing).status = 400 ∧
    (configHandler ⟨none, none⟩ .missing).body =
      .failure "Invalid email format" :=
  ⟨rfl, config_400_body_fixed ⟨none, none⟩ .missing rfl⟩

end ConfigServer
